import Mathlib

/-!
Verification development for the Mergedoc-Generator document pipeline.

The Python source is embedded shallowly:

* a data-table cell is a scalar (`Val`), a row an association list from field
  name to cell, a table an ordered list of rows plus its column names;
* a configuration is a JSON-like nested value (`J`), a configuration dict an
  association list from string keys to such values, with Python dict
  semantics (insertion order, assignment keeps the position of an existing key);
* floating-point amounts are modelled as exact rationals;
* fallible steps return `Option`/`Except`, and a raised Python exception is an
  `Except.error`;
* file-system effects are abstracted: a renderer oracle says whether rendering
  a given output path succeeds, and the files written by a run are collected
  in a trace list.
-/

/-- Scalar cell value of a data table row (string, number, boolean or missing).
Numbers are modelled as exact rationals. -/
inductive Val where
  | vstr  (s : String)
  | vnum  (q : ℚ)
  | vbool (b : Bool)
  | vnull
  deriving DecidableEq, Repr

/-- Python str() on a scalar cell. An integral numeric prints like a Python
int (the int64 cells a tabular loader produces); the repr of a non-integral
numeric is approximated and no theorem relies on it. -/
def Val.toStr : Val → String
  | .vstr s  => s
  | .vnum q  => if q.den = 1 then toString q.num else toString q
  | .vbool b => if b then "True" else "False"
  | .vnull   => "None"

/-- Python float() on a scalar cell, used for quantity and price cells.
Applied to a string it would parse or raise; string cells are excluded by the
hypotheses of the theorems that use this. -/
def Val.toQ? : Val → Option ℚ
  | .vstr _  => none
  | .vnum q  => some q
  | .vbool b => some (if b then 1 else 0)
  | .vnull   => none

/-- A table row: a mapping from field name to scalar cell, in column order. -/
abbrev Row := List (String × Val)

/-- Lookup in a Python dict or pandas row modelled as an association list
(keys of a dict are unique, so the first binding is the binding). -/
def dget? {β : Type} : List (String × β) → String → Option β
  | [], _ => none
  | p :: ps, k => if p.1 == k then some p.2 else dget? ps k

/-- Python dict assignment: an existing key keeps its position and receives
the new value, a new key is appended (insertion order). -/
def dictSet {β : Type} : List (String × β) → String → β → List (String × β)
  | [], k, v => [(k, v)]
  | p :: ps, k, v => if p.1 == k then (k, v) :: ps else p :: dictSet ps k v

/-- Python dict.update: shallow key-by-key assignment of the overlay, used by
the document-type subclasses to build their default configuration. -/
def dictUpdate {β : Type} (d overlay : List (String × β)) : List (String × β) :=
  overlay.foldl (fun acc p => dictSet acc p.1 p.2) d

/-- An in-memory data table: column names plus rows in file order. -/
structure Table where
  cols : List String
  rows : List Row
  deriving DecidableEq, Repr

/-- Value of the key column in one row (rowwise view of data[document_field]).
In a loaded table the field is present in every row; a missing field reads as
the missing scalar. -/
def keyOf (f : String) (r : Row) : Val :=
  (dget? r f).getD .vnull

/-- Distinct values of a list in order of first appearance, relative to an
accumulator of values already seen. -/
def dedupFirstAux (seen : List Val) : List Val → List Val
  | [] => []
  | v :: vs =>
    if seen.contains v then dedupFirstAux seen vs
    else v :: dedupFirstAux (v :: seen) vs

/-- Distinct values of a list in order of first appearance
(pandas Series.unique). -/
def dedupFirst (l : List Val) : List Val := dedupFirstAux [] l

/-- DocumentGenerator._group_document_data (invoice.py, sales_order.py): for
each distinct key value in first-appearance order, filter the table to the
rows whose key compares equal to it, and assign the group to the stringified
key in a dict. -/
def groupDocumentData (rows : List Row) (f : String) : List (String × List Row) :=
  (dedupFirst (rows.map (keyOf f))).foldl
    (fun g v => dictSet g v.toStr (rows.filter (fun r => keyOf f r == v))) []

/-- A JSON-like configuration value: nested dicts, arrays and scalars. -/
inductive J where
  | jstr  (s : String)
  | jnum  (q : ℚ)
  | jbool (b : Bool)
  | jnull
  | jarr  (xs : List J)
  | jobj  (kvs : List (String × J))

/-- A configuration dict. -/
abbrev Dict := List (String × J)

/-- Python truthiness of a configuration value. -/
def J.truthy : J → Bool
  | .jstr s   => s != ""
  | .jnum q   => q != 0
  | .jbool b  => b
  | .jnull    => false
  | .jarr xs  => !xs.isEmpty
  | .jobj kvs => !kvs.isEmpty

mutual

/-- DocumentConfig._update_nested_dict (base.py): for every key of the
override in order, recurse when both sides hold nested dicts, otherwise
assign the override value outright. -/
def updateNested : Dict → Dict → Dict
  | b, [] => b
  | b, (k, v) :: rest => updateNested (setMerged b k v) rest
termination_by _ u => sizeOf u

/-- One iteration of the _update_nested_dict loop: the assignment performed
for a single override key. -/
def setMerged : Dict → String → J → Dict
  | b, k, J.jobj vo =>
    match dget? b k with
    | some (J.jobj bo) => dictSet b k (J.jobj (updateNested bo vo))
    | _ => dictSet b k (J.jobj vo)
  | b, k, v => dictSet b k v
termination_by _ _ v => sizeOf v

end

/-- Lookup along a key path in a nested configuration value. -/
def J.pget? : J → List String → Option J
  | v, [] => some v
  | J.jobj kvs, k :: ks =>
    match dget? kvs k with
    | some v => v.pget? ks
    | none => none
  | _, _ :: _ => none

/-- Python float() on a configuration value (tax rate, shipping cost). A
non-numeric value would make the arithmetic in the totals section raise; it
reads as absent here and the theorems require the read to succeed. -/
def J.toQ? : J → Option ℚ
  | .jnum q  => some q
  | .jbool b => some (if b then 1 else 0)
  | _        => none

/-- String-valued configuration entry at a key path. -/
def cfgStr? (cfg : Dict) (path : List String) : Option String :=
  match (J.jobj cfg).pget? path with
  | some (J.jstr s) => some s
  | _ => none

/-- Quantity or price cell of one row: row.get(field, 0) followed by
float(). -/
def cellQ? (r : Row) (f : String) : Option ℚ :=
  match dget? r f with
  | none => some 0
  | some v => v.toQ?

/-- One line total: quantity times unit price. -/
def lineTotal? (qf pf : String) (r : Row) : Option ℚ := do
  let q ← cellQ? r qf
  let p ← cellQ? r pf
  pure (q * p)

/-- Subtotal loop of _create_totals_section: running sum of the line totals
over every row of the group. -/
def subtotal? (qf pf : String) (rows : List Row) : Option ℚ :=
  rows.foldlM (fun s r => (lineTotal? qf pf r).map (fun x => s + x)) 0

/-- Field name at an index of the configured fields.line_item_fields array
(the field-mapping section of the configuration). -/
def lineItemField? (cfg : Dict) (i : Nat) : Option String :=
  match (J.jobj cfg).pget? ["fields", "line_item_fields"] with
  | some (J.jarr xs) =>
    match xs.get? i with
    | some (J.jstr s) => some s
    | _ => none
  | _ => none

/-- Numeric calculation parameter from the calculations section. -/
def calcQ? (cfg : Dict) (key : String) : Option ℚ :=
  match (J.jobj cfg).pget? ["calculations", key] with
  | some v => v.toQ?
  | none => none

/-- DocumentGenerator._create_totals_section (invoice.py): subtotal summed
over all rows with the field-mapped quantity and unit-price columns, then
tax_amount = subtotal * tax_rate and total = subtotal + tax_amount; the
invoice type has no shipping cost. Returns (subtotal, tax_amount, total). -/
def createTotalsInvoice? (cfg : Dict) (rows : List Row) : Option (ℚ × ℚ × ℚ) := do
  let qf ← lineItemField? cfg 1
  let pf ← lineItemField? cfg 2
  let s ← subtotal? qf pf rows
  let tr ← calcQ? cfg "tax_rate"
  pure (s, s * tr, s + s * tr)

/-- DocumentGenerator._create_totals_section (sales_order.py): subtotal summed
over all rows, then the flat shipping cost and tax_amount = subtotal *
tax_rate, and total = subtotal + shipping_cost + tax_amount — shipping is
added untaxed. Returns (subtotal, shipping_cost, tax_amount, total). -/
def createTotalsSalesOrder? (cfg : Dict) (rows : List Row) :
    Option (ℚ × ℚ × ℚ × ℚ) := do
  let qf ← lineItemField? cfg 2
  let pf ← lineItemField? cfg 3
  let s ← subtotal? qf pf rows
  let sc ← calcQ? cfg "shipping_cost"
  let tr ← calcQ? cfg "tax_rate"
  pure (s, sc, s * tr, s + sc + s * tr)

/-- Range filtering inside generate_documents: a falsy document_range (absent,
or the empty list) leaves the grouping untouched, otherwise the grouped dict
is rebuilt keeping exactly the keys contained in the requested list. -/
def applyRangeFilter (grouped : List (String × List Row)) :
    Option (List String) → List (String × List Row)
  | none => grouped
  | some r => if r.isEmpty then grouped else grouped.filter (fun kv => r.contains kv.1)

/-- Character-level test that the first list starts with the second. -/
def startsWithChars : List Char → List Char → Bool
  | [], _ => true
  | _ :: _, [] => false
  | p :: ps, c :: cs => p == c && startsWithChars ps cs

/-- Replace every occurrence of a non-empty pattern in a character list.
Each step consumes at least one character, so fuel equal to the input length
is enough; the fuel argument only makes the recursion structural. -/
def replaceChars (pat rep : List Char) : Nat → List Char → List Char
  | _, [] => []
  | 0, l => l
  | fuel + 1, c :: cs =>
    if startsWithChars pat (c :: cs) ∧ pat ≠ [] then
      rep ++ replaceChars pat rep fuel (List.drop (pat.length - 1) cs)
    else c :: replaceChars pat rep fuel cs

/-- Python str.format on the filename template: every occurrence of the
document_number placeholder is replaced by the document key. -/
def formatTemplate (tmpl key : String) : String :=
  String.mk (replaceChars "\x7bdocument_number\x7d".data key.data
    tmpl.data.length tmpl.data)

/-- Outcome of one generate_documents run: the document files written to disk
in order (the merged artifact included), and the returned list of individual
file paths, or the propagated exception. -/
structure GenResult where
  written : List String
  result  : Except String (List String)
  deriving Repr

/-- The per-document loop of generate_documents: the output path of each group is
derived from the filename template; a rendering failure raises out of the
loop, abandoning the documents not yet generated. Returns the paths written
so far and the error, if any. -/
def renderLoop (renderOk : String → Bool) (mkPath : String → Option String) :
    List (String × List Row) → List String → List String × Option String
  | [], acc => (acc, none)
  | (k, _) :: rest, acc =>
    match mkPath k with
    | none => (acc, some "KeyError: filename_template")
    | some p =>
      if renderOk p then renderLoop renderOk mkPath rest (acc ++ [p])
      else (acc, some ("render failed: " ++ p))

/-- DocumentGenerator.generate_documents (invoice.py, sales_order.py): resolve
the key field, check it against the table columns, group, apply the range
filter, render each group to an individual file when individual_files is
truthy, then write one merged artifact when merged_file is truthy and at
least one individual file was produced. renderOk abstracts the external
renderer (story building plus PDF production) per output path; mergedName
stands for the timestamped merged file name. -/
def generateDocuments (cfg : Dict) (renderOk : String → Bool) (mergedName : String)
    (data : Table) (docRange : Option (List String)) : GenResult :=
  match cfgStr? cfg ["fields", "document_number_field"] with
  | none => ⟨[], .error "KeyError: fields.document_number_field"⟩
  | some docField =>
    if data.cols.contains docField = false then
      ⟨[], .error ("Document number field " ++ docField ++ " not found in data")⟩
    else
      let grouped := applyRangeFilter (groupDocumentData data.rows docField) docRange
      match cfgStr? cfg ["output", "output_directory"] with
      | none => ⟨[], .error "KeyError: output.output_directory"⟩
      | some outDir =>
        match (J.jobj cfg).pget? ["output", "individual_files"] with
        | none => ⟨[], .error "KeyError: output.individual_files"⟩
        | some indiv =>
          let mkPath := fun k =>
            (cfgStr? cfg ["output", "filename_template"]).map
              (fun t => outDir ++ "/" ++ formatTemplate t k)
          let step := if indiv.truthy then renderLoop renderOk mkPath grouped [] else ([], none)
          match step.2 with
          | some e => ⟨step.1, .error e⟩
          | none =>
            match (J.jobj cfg).pget? ["output", "merged_file"] with
            | none => ⟨step.1, .error "KeyError: output.merged_file"⟩
            | some mf =>
              if mf.truthy && !step.1.isEmpty then
                ⟨step.1 ++ [outDir ++ "/" ++ mergedName], .ok step.1⟩
              else ⟨step.1, .ok step.1⟩

/-- State of a path on disk as configuration resolution sees it: missing,
present but unparseable, or present and parsed to an override dict. -/
inductive FileState where
  | absent
  | malformed
  | parsed (d : Dict)

/-- os.path.exists for the modelled file system. -/
def FileState.isPresent : FileState → Bool
  | .absent => false
  | _ => true

/-- DocumentConfig.load_config (base.py): parse the file and deep-merge it
over the current configuration; any parse failure is caught, logged, and
leaves the configuration unchanged. -/
def loadConfig (cur : Dict) (st : FileState) : Dict :=
  match st with
  | .parsed u => updateNested cur u
  | _ => cur

/-- The standard-location probe of DocumentConfig.__init__ (base.py): load
the first existing file among the search paths, or keep pure defaults. -/
def resolveSearch (defaults : Dict) (fs : String → FileState) :
    List String → Dict
  | [] => defaults
  | p :: ps =>
    if (fs p).isPresent then loadConfig defaults (fs p)
    else resolveSearch defaults fs ps

/-- DocumentConfig.__init__ (base.py): start from the defaults; when a truthy
explicit path is given and exists, load it and stop — whether or not the load
succeeded, no other location is tried; otherwise probe the standard search
paths. -/
def resolveConfig (defaults : Dict) (fs : String → FileState)
    (explicit : Option String) (searchPaths : List String) : Dict :=
  match explicit with
  | some p =>
    if p != "" && (fs p).isPresent then loadConfig defaults (fs p)
    else resolveSearch defaults fs searchPaths
  | none => resolveSearch defaults fs searchPaths

/-- DocumentConfig.get_default_config (base.py). -/
def baseDefaultConfig : Dict :=
  [ ("page_size", .jstr "letter"),
    ("margins", .jobj
      [("top", .jnum 72), ("bottom", .jnum 72),
       ("left", .jnum 72), ("right", .jnum 72)]),
    ("company", .jobj
      [("name", .jstr "[COMPANY NAME - CONFIGURE ME]"),
       ("address", .jstr "[COMPANY ADDRESS\nCITY, STATE ZIP - CONFIGURE ME]"),
       ("phone", .jstr "[PHONE NUMBER - CONFIGURE ME]"),
       ("email", .jstr "[EMAIL - CONFIGURE ME]")]),
    ("output", .jobj
      [("individual_files", .jbool true),
       ("merged_file", .jbool false),
       ("output_directory", .jstr "generated_documents"),
       ("filename_template", .jstr "document_\x7bdocument_number\x7d.pdf")])]

/-- The invoice-specific part of DocumentConfig.get_default_config
(invoice.py). -/
def invoiceOverlay : Dict :=
  [ ("document_type", .jstr "invoice"),
    ("company", .jobj
      [("name", .jstr "[YOUR COMPANY NAME]"),
       ("address", .jstr "[YOUR COMPANY ADDRESS\nCITY, STATE ZIP CODE]"),
       ("phone", .jstr "[YOUR PHONE NUMBER]"),
       ("email", .jstr "[YOUR EMAIL ADDRESS]"),
       ("logo_path", .jstr ""),
       ("logo_width", .jnum 1.2),
       ("logo_height", .jnum 0.8)]),
    ("fields", .jobj
      [("document_number_field", .jstr "invoice_number"),
       ("customer_fields", .jarr
         [.jstr "customer_name", .jstr "customer_address", .jstr "customer_email"]),
       ("line_item_fields", .jarr
         [.jstr "description", .jstr "quantity", .jstr "unit_price"]),
       ("date_field", .jstr "invoice_date"),
       ("due_date_field", .jstr "due_date")]),
    ("calculations", .jobj
      [("subtotal_field", .jstr "line_total"),
       ("tax_rate", .jnum 0.08),
       ("tax_field", .jstr "tax_amount"),
       ("total_field", .jstr "total_amount")]),
    ("formatting", .jobj
      [("currency_symbol", .jstr "$"),
       ("date_format", .jstr "%m/%d/%Y"),
       ("number_format", .jstr ",.2f")]),
    ("output", .jobj
      [("individual_files", .jbool true),
       ("merged_file", .jbool false),
       ("output_directory", .jstr "invoices"),
       ("filename_template", .jstr "invoice_\x7bdocument_number\x7d.pdf")])]

/-- Invoice default configuration: the base defaults shallowly updated with
the invoice overlay (base_config.update(invoice_config)). -/
def invoiceDefaultConfig : Dict := dictUpdate baseDefaultConfig invoiceOverlay

/-- The sales-order-specific part of DocumentConfig.get_default_config
(sales_order.py). -/
def salesOrderOverlay : Dict :=
  [ ("document_type", .jstr "sales_order"),
    ("company", .jobj
      [("name", .jstr "[YOUR COMPANY NAME]"),
       ("address", .jstr "[YOUR COMPANY ADDRESS\nCITY, STATE ZIP CODE]"),
       ("phone", .jstr "[YOUR PHONE NUMBER]"),
       ("email", .jstr "[YOUR EMAIL ADDRESS]"),
       ("website", .jstr "[YOUR WEBSITE]")]),
    ("fields", .jobj
      [("document_number_field", .jstr "order_number"),
       ("customer_fields", .jarr
         [.jstr "customer_name", .jstr "customer_address",
          .jstr "customer_email", .jstr "customer_phone"]),
       ("shipping_fields", .jarr
         [.jstr "shipping_name", .jstr "shipping_address", .jstr "shipping_method"]),
       ("line_item_fields", .jarr
         [.jstr "item_code", .jstr "description", .jstr "quantity", .jstr "unit_price"]),
       ("date_field", .jstr "order_date"),
       ("ship_date_field", .jstr "ship_date"),
       ("delivery_date_field", .jstr "delivery_date")]),
    ("calculations", .jobj
      [("subtotal_field", .jstr "line_total"),
       ("shipping_cost", .jnum 25.00),
       ("tax_rate", .jnum 0.08),
       ("tax_field", .jstr "tax_amount"),
       ("total_field", .jstr "total_amount")]),
    ("formatting", .jobj
      [("currency_symbol", .jstr "$"),
       ("date_format", .jstr "%m/%d/%Y"),
       ("number_format", .jstr ",.2f")]),
    ("output", .jobj
      [("individual_files", .jbool true),
       ("merged_file", .jbool false),
       ("output_directory", .jstr "sales_orders"),
       ("filename_template", .jstr "so_\x7bdocument_number\x7d.pdf")])]

/-- Sales-order default configuration (base_config.update(sales_order_config)). -/
def salesOrderDefaultConfig : Dict := dictUpdate baseDefaultConfig salesOrderOverlay

/-- The demo-specific part of DocumentConfig.get_default_config
(layout_demo.py). -/
def layoutDemoOverlay : Dict :=
  [ ("document_type", .jstr "layout_demo"),
    ("debug_mode", .jbool true),
    ("company", .jobj
      [("name", .jstr "[DEMO COMPANY]"),
       ("address", .jstr "[DEMO ADDRESS]"),
       ("phone", .jstr "[DEMO PHONE]"),
       ("email", .jstr "[DEMO EMAIL]")]),
    ("fields", .jobj
      [("document_number_field", .jstr "demo_number"),
       ("customer_fields", .jarr [.jstr "demo_customer"]),
       ("line_item_fields", .jarr
         [.jstr "demo_item", .jstr "demo_qty", .jstr "demo_price"])]),
    ("output", .jobj
      [("individual_files", .jbool true),
       ("merged_file", .jbool false),
       ("output_directory", .jstr "layout_demos"),
       ("filename_template", .jstr "layout_demo_\x7bdocument_number\x7d.pdf")])]

/-- Layout-demo default configuration (base_config.update(demo_config)). -/
def layoutDemoDefaultConfig : Dict := dictUpdate baseDefaultConfig layoutDemoOverlay

/-- Example table for the C1 witness: two document keys with non-contiguous
rows. -/
def exRowsC1 : List Row :=
  [[("inv", Val.vstr "A"), ("q", Val.vnum 1)],
   [("inv", Val.vstr "B"), ("q", Val.vnum 2)],
   [("inv", Val.vstr "A"), ("q", Val.vnum 3)]]
/-- Guard along a key path: the override holds a genuine mapping at each
level, and does not replace a proper ancestor of the path with a non-mapping
value (it may lack the key, or hold a nested mapping there; at the final
component anything is allowed). -/
def okAlongB : List String → Dict → Bool
  | [], _ => true
  | k :: ks, u =>
    decide ((u.map Prod.fst).Nodup) &&
      (match dget? u k with
       | none => true
       | some (J.jobj uo) => okAlongB ks uo
       | some _ => ks.isEmpty)
/-- Concrete line items of the C2 example: (qty 40, price 75.00),
(qty 1, price 15.00), (qty 1, price 50.00). -/
def exRowsC2 : List Row :=
  [[("quantity", Val.vnum 40), ("unit_price", Val.vnum 75)],
   [("quantity", Val.vnum 1), ("unit_price", Val.vnum 15)],
   [("quantity", Val.vnum 1), ("unit_price", Val.vnum 50)]]
/-- Configuration for the C10 witness: invoice defaults with individual
files disabled and the merged artifact requested. -/
def cfgC10 : Dict :=
  dictUpdate invoiceDefaultConfig
    [("output", J.jobj
      [("individual_files", J.jbool false),
       ("merged_file", J.jbool true),
       ("output_directory", J.jstr "invoices"),
       ("filename_template", J.jstr "invoice_\x7bdocument_number\x7d.pdf")])]
/-- Table for the C4 witness and counterexample: two invoices A and B. -/
def exTabC4 : Table :=
  ⟨["invoice_number"],
   [[("invoice_number", Val.vstr "A")], [("invoice_number", Val.vstr "B")]]⟩
/-- File system of the C8 scenario: the explicit path is malformed while a
standard search location holds a parseable override of page_size. -/
def fsC8 : String → FileState := fun q =>
  if q == "explicit.json" then .malformed
  else if q == "search.json" then .parsed [("page_size", J.jstr "a4")]
  else .absent

/-! ### Dictionary lemmas -/

theorem dget?_dictSet_self {β : Type} (d : List (String × β)) (k : String) (v : β) :
    dget? (dictSet d k v) k = some v := by
  induction d with
  | nil => simp [dictSet, dget?]
  | cons p ps ih =>
    by_cases h : p.1 = k
    · simp [dictSet, dget?, h]
    · simp [dictSet, dget?, h, ih]

theorem dget?_dictSet_ne {β : Type} (d : List (String × β)) (k k' : String) (v : β)
    (h : k' ≠ k) : dget? (dictSet d k v) k' = dget? d k' := by
  induction d with
  | nil => simp [dictSet, dget?, Ne.symm h]
  | cons p ps ih =>
    by_cases h2 : p.1 = k
    · subst h2
      simp [dictSet, dget?, Ne.symm h]
    · by_cases h3 : p.1 = k'
      · simp [dictSet, dget?, h2, h3, h]
      · simp [dictSet, dget?, h2, h3, ih]

theorem dget?_eq_none_of_not_mem {β : Type} (d : List (String × β)) (k : String)
    (h : k ∉ d.map Prod.fst) : dget? d k = none := by
  induction d with
  | nil => simp [dget?]
  | cons p ps ih =>
    simp only [List.map_cons, List.mem_cons, not_or] at h
    simp [dget?, Ne.symm h.1, ih h.2]

theorem dictSet_eq_append_of_not_mem {β : Type} (d : List (String × β)) (k : String)
    (v : β) (h : k ∉ d.map Prod.fst) : dictSet d k v = d ++ [(k, v)] := by
  induction d with
  | nil => simp [dictSet]
  | cons p ps ih =>
    simp only [List.map_cons, List.mem_cons, not_or] at h
    simp [dictSet, Ne.symm h.1, ih h.2]

/-! ### First-appearance deduplication lemmas -/

theorem mem_dedupFirstAux (l : List Val) :
    ∀ (seen : List Val) (v : Val), v ∈ dedupFirstAux seen l ↔ v ∈ l ∧ v ∉ seen := by
  induction l with
  | nil => simp [dedupFirstAux]
  | cons a tl ih =>
    intro seen v
    by_cases ha : a ∈ seen
    · rw [dedupFirstAux, if_pos (by simpa using ha), ih]
      constructor
      · exact fun ⟨h1, h2⟩ => ⟨List.mem_cons_of_mem _ h1, h2⟩
      · rintro ⟨h1, h2⟩
        rcases List.mem_cons.mp h1 with rfl | h1
        · exact absurd ha h2
        · exact ⟨h1, h2⟩
    · rw [dedupFirstAux, if_neg (by simpa using ha)]
      simp only [List.mem_cons, ih]
      constructor
      · rintro (rfl | ⟨h1, h2⟩)
        · exact ⟨Or.inl rfl, ha⟩
        · simp only [List.mem_cons, not_or] at h2
          exact ⟨Or.inr h1, h2.2⟩
      · rintro ⟨rfl | h1, h2⟩
        · exact Or.inl rfl
        · by_cases hv : v = a
          · exact Or.inl hv
          · exact Or.inr ⟨h1, by simp [hv, h2]⟩

theorem nodup_dedupFirstAux (l : List Val) :
    ∀ seen : List Val, (dedupFirstAux seen l).Nodup := by
  induction l with
  | nil => intro seen; simp [dedupFirstAux]
  | cons a tl ih =>
    intro seen
    by_cases ha : a ∈ seen
    · rw [dedupFirstAux, if_pos (by simpa using ha)]
      exact ih seen
    · rw [dedupFirstAux, if_neg (by simpa using ha)]
      refine List.nodup_cons.mpr ⟨fun hmem => ?_, ih _⟩
      have := (mem_dedupFirstAux tl (a :: seen) a).mp hmem
      simp at this

theorem mem_dedupFirst (l : List Val) (v : Val) : v ∈ dedupFirst l ↔ v ∈ l := by
  rw [dedupFirst, mem_dedupFirstAux]
  simp

theorem nodup_dedupFirst (l : List Val) : (dedupFirst l).Nodup :=
  nodup_dedupFirstAux l []

/-! ### Grouping lemmas -/

theorem foldl_dictSet_fresh (mk : Val → String) (body : Val → List Row) :
    ∀ (vs : List Val) (g : List (String × List Row)),
      (vs.map mk).Nodup → (∀ v ∈ vs, mk v ∉ g.map Prod.fst) →
      vs.foldl (fun acc v => dictSet acc (mk v) (body v)) g =
        g ++ vs.map (fun v => (mk v, body v)) := by
  intro vs
  induction vs with
  | nil => intro g _ _; simp
  | cons v tl ih =>
    intro g hnd hfresh
    simp only [List.map_cons, List.nodup_cons] at hnd
    have hstep : dictSet g (mk v) (body v) = g ++ [(mk v, body v)] :=
      dictSet_eq_append_of_not_mem _ _ _ (hfresh v (List.mem_cons_self _ _))
    simp only [List.foldl_cons, hstep]
    rw [ih (g ++ [(mk v, body v)]) hnd.2]
    · simp
    · intro w hw
      simp only [List.map_append, List.mem_append, not_or]
      refine ⟨hfresh w (List.mem_cons_of_mem _ hw), ?_⟩
      have : mk w ≠ mk v := fun hEq => hnd.1 (hEq ▸ List.mem_map_of_mem mk hw)
      simpa using this

theorem groupDocumentData_eq_map (rows : List Row) (f : String)
    (hinj : ((dedupFirst (rows.map (keyOf f))).map Val.toStr).Nodup) :
    groupDocumentData rows f =
      (dedupFirst (rows.map (keyOf f))).map
        (fun v => (v.toStr, rows.filter (fun r => keyOf f r == v))) := by
  rw [groupDocumentData,
    foldl_dictSet_fresh Val.toStr (fun v => rows.filter (fun r => keyOf f r == v)) _ []
      hinj (by simp)]
  simp

theorem flatten_filter_perm (f : String) :
    ∀ vs : List Val, vs.Nodup → ∀ rows : List Row, (∀ r ∈ rows, keyOf f r ∈ vs) →
      ((vs.map (fun v => rows.filter (fun r => keyOf f r == v))).flatten).Perm rows := by
  intro vs
  induction vs with
  | nil =>
    intro _ rows hall
    have : rows = [] := List.eq_nil_iff_forall_not_mem.mpr (fun r hr => by
      simpa using hall r hr)
    simp [this]
  | cons v tl ih =>
    intro hnd rows hall
    have hv : v ∉ tl := (List.nodup_cons.mp hnd).1
    have htl : tl.Nodup := (List.nodup_cons.mp hnd).2
    set rows2 := rows.filter (fun r => !(keyOf f r == v)) with hrows2
    have hsame : ∀ w ∈ tl,
        rows.filter (fun r => keyOf f r == w) = rows2.filter (fun r => keyOf f r == w) := by
      intro w hw
      rw [hrows2, List.filter_filter]
      refine (List.filter_congr ?_).symm
      intro r _
      by_cases hk : keyOf f r = w
      · have : w ≠ v := fun hEq => hv (hEq ▸ hw)
        simp [hk, this]
      · simp [hk]
    have hmap : tl.map (fun w => rows.filter (fun r => keyOf f r == w)) =
        tl.map (fun w => rows2.filter (fun r => keyOf f r == w)) :=
      List.map_congr_left hsame
    have hall2 : ∀ r ∈ rows2, keyOf f r ∈ tl := by
      intro r hr
      rw [hrows2, List.mem_filter] at hr
      have := hall r hr.1
      rcases List.mem_cons.mp this with hEq | hmem
      · exfalso
        have := hr.2
        simp [hEq] at this
      · exact hmem
    have h1 : ((v :: tl).map (fun w => rows.filter (fun r => keyOf f r == w))).flatten =
        rows.filter (fun r => keyOf f r == v) ++
          (tl.map (fun w => rows2.filter (fun r => keyOf f r == w))).flatten := by
      simp [hmap]
    rw [h1]
    exact ((ih htl rows2 hall2).append_left _).trans (List.filter_append_perm _ rows)

/-! ### Claim C1: grouping partitions the table -/

/-- C1 (amended): provided stringification is injective on the distinct key
values appearing in the table — no two distinct key values stringify to the
same string — grouping partitions the table exactly: every row belongs to
exactly one group, the concatenation of all groups is a permutation of the
table, rows inside a group keep their original table order, and the mapping
iterates its keys in first-appearance order of the key in the table. -/
theorem C1_grouping_partitions (rows : List Row) (f : String)
    (hinj : ∀ v ∈ dedupFirst (rows.map (keyOf f)),
      ∀ w ∈ dedupFirst (rows.map (keyOf f)), v.toStr = w.toStr → v = w) :
    (∀ r ∈ rows, ∃! e : String × List Row, e ∈ groupDocumentData rows f ∧ r ∈ e.2)
    ∧ (((groupDocumentData rows f).map Prod.snd).flatten).Perm rows
    ∧ (∀ e ∈ groupDocumentData rows f, e.2.Sublist rows)
    ∧ (groupDocumentData rows f).map Prod.fst =
        (dedupFirst (rows.map (keyOf f))).map Val.toStr := by
  have hnd : ((dedupFirst (rows.map (keyOf f))).map Val.toStr).Nodup :=
    List.Nodup.map_on hinj (nodup_dedupFirst _)
  have hG := groupDocumentData_eq_map rows f hnd
  refine ⟨?_, ?_, ?_, ?_⟩
  · intro r hr
    have hkey : keyOf f r ∈ dedupFirst (rows.map (keyOf f)) :=
      (mem_dedupFirst _ _).mpr (List.mem_map_of_mem _ hr)
    refine ⟨((keyOf f r).toStr, rows.filter (fun r2 => keyOf f r2 == keyOf f r)),
      ⟨?_, ?_⟩, ?_⟩
    · rw [hG]
      exact List.mem_map_of_mem _ hkey
    · simp [List.mem_filter, hr]
    · rintro e ⟨heG, hre⟩
      rw [hG, List.mem_map] at heG
      obtain ⟨w, _, rfl⟩ := heG
      have hkr : keyOf f r = w := by
        have := (List.mem_filter.mp hre).2
        simpa using this
      rw [hkr]
  · rw [hG]
    rw [List.map_map]
    exact flatten_filter_perm f _ (nodup_dedupFirst _) rows
      (fun r hr => (mem_dedupFirst _ _).mpr (List.mem_map_of_mem _ hr))
  · rw [hG]
    intro e he
    rw [List.mem_map] at he
    obtain ⟨w, _, rfl⟩ := he
    exact List.filter_sublist _
  · rw [hG, List.map_map]
    rfl

/-- Witness for C1 at a concrete three-row, two-key table: the injectivity
hypothesis holds and the partition properties follow. -/
theorem C1_grouping_partitions_witness :
    (∀ v ∈ dedupFirst (exRowsC1.map (keyOf "inv")),
      ∀ w ∈ dedupFirst (exRowsC1.map (keyOf "inv")), v.toStr = w.toStr → v = w)
    ∧ ((∀ r ∈ exRowsC1, ∃! e : String × List Row,
          e ∈ groupDocumentData exRowsC1 "inv" ∧ r ∈ e.2)
        ∧ (((groupDocumentData exRowsC1 "inv").map Prod.snd).flatten).Perm exRowsC1
        ∧ (∀ e ∈ groupDocumentData exRowsC1 "inv", e.2.Sublist exRowsC1)
        ∧ (groupDocumentData exRowsC1 "inv").map Prod.fst =
            (dedupFirst (exRowsC1.map (keyOf "inv"))).map Val.toStr) :=
  ⟨by decide, C1_grouping_partitions exRowsC1 "inv" (by decide)⟩

/-- C1 counterexample: over a table whose key column holds the integer 1 and
the string "1" — distinct values under the element-wise comparison, identical
under stringification — the group stored under "1" is overwritten, so the
union of the groups is not the table: the claim as stated fails. -/
theorem C1_counterexample :
    ¬ (((groupDocumentData [[("k", Val.vnum 1)], [("k", Val.vstr "1")]] "k").map
        Prod.snd).flatten).Perm [[("k", Val.vnum 1)], [("k", Val.vstr "1")]] := by
  decide

/-! ### Deep-merge lookup lemmas -/

theorem dget?_setMerged_ne (b : Dict) (k k' : String) (v : J) (h : k' ≠ k) :
    dget? (setMerged b k v) k' = dget? b k' := by
  cases v with
  | jobj vo =>
    rw [setMerged]
    split <;> exact dget?_dictSet_ne _ _ _ _ h
  | jstr s =>
    simp only [setMerged]
    exact dget?_dictSet_ne _ _ _ _ h
  | jnum q =>
    simp only [setMerged]
    exact dget?_dictSet_ne _ _ _ _ h
  | jbool bb =>
    simp only [setMerged]
    exact dget?_dictSet_ne _ _ _ _ h
  | jnull =>
    simp only [setMerged]
    exact dget?_dictSet_ne _ _ _ _ h
  | jarr xs =>
    simp only [setMerged]
    exact dget?_dictSet_ne _ _ _ _ h

theorem dget?_setMerged_self (b : Dict) (k : String) (v : J) :
    dget? (setMerged b k v) k =
      match v, dget? b k with
      | J.jobj vo, some (J.jobj bo) => some (J.jobj (updateNested bo vo))
      | _, _ => some v := by
  cases v with
  | jobj vo =>
    rw [setMerged]
    rcases hb : dget? b k with _ | bv
    · simp [hb, dget?_dictSet_self]
    · cases bv <;> simp [hb, dget?_dictSet_self]
  | jstr s => simp [setMerged, dget?_dictSet_self]
  | jnum q => simp [setMerged, dget?_dictSet_self]
  | jbool bb => simp [setMerged, dget?_dictSet_self]
  | jnull => simp [setMerged, dget?_dictSet_self]
  | jarr xs => simp [setMerged, dget?_dictSet_self]

/-- Master characterization of deep merge: the merged dict, looked up at any
key, holds the recursive merge when both sides hold nested dicts there, the
override value when the override has the key otherwise, and the base value
when the override lacks the key. Requires the override to be a genuine
mapping (no duplicate keys). -/
theorem dget?_updateNested (u : Dict) :
    ∀ (b : Dict) (k : String), (u.map Prod.fst).Nodup →
    dget? (updateNested b u) k =
      match dget? u k, dget? b k with
      | some (J.jobj uo), some (J.jobj bo) => some (J.jobj (updateNested bo uo))
      | some v, _ => some v
      | none, _ => dget? b k := by
  induction u with
  | nil =>
    intro b k _
    simp [updateNested, dget?]
  | cons p rest ih =>
    intro b k hnd
    obtain ⟨k0, v0⟩ := p
    simp only [List.map_cons, List.nodup_cons] at hnd
    rw [updateNested, ih (setMerged b k0 v0) k hnd.2]
    by_cases hk : k = k0
    · subst hk
      rw [dget?_eq_none_of_not_mem _ _ hnd.1, dget?_setMerged_self]
      have hu : dget? ((k, v0) :: rest) k = some v0 := by simp [dget?]
      rw [hu]
      cases v0 <;> rcases hb : dget? b k with _ | bv <;> try rfl
      all_goals cases bv <;> rfl
    · have hu : dget? ((k0, v0) :: rest) k = dget? rest k := by
        simp [dget?, Ne.symm hk]
      rw [hu, dget?_setMerged_ne _ _ _ _ hk]

/-! ### Claim C3: deep-merge precedence -/

/-- C3: for every base dict and override mapping, at any key where both hold
nested dicts the merge result is the recursive merge; at any other key the
override holds, its value wins wholesale; a key absent from the override
keeps the base value; and the result is determined pointwise by the two
mappings, independently of how the override happens to be ordered. -/
theorem C3_deep_merge_precedence (b u : Dict) (hu : (u.map Prod.fst).Nodup) :
    (∀ k uo bo, dget? u k = some (J.jobj uo) → dget? b k = some (J.jobj bo) →
      dget? (updateNested b u) k = some (J.jobj (updateNested bo uo)))
    ∧ (∀ k v, dget? u k = some v →
        (∀ uo, v = J.jobj uo → ∀ bo, dget? b k ≠ some (J.jobj bo)) →
        dget? (updateNested b u) k = some v)
    ∧ (∀ k, dget? u k = none → dget? (updateNested b u) k = dget? b k)
    ∧ (∀ u2, (u2.map Prod.fst).Nodup → (∀ k, dget? u2 k = dget? u k) →
        ∀ k, dget? (updateNested b u2) k = dget? (updateNested b u) k) := by
  refine ⟨?_, ?_, ?_, ?_⟩
  · intro k uo bo huk hbk
    rw [dget?_updateNested u b k hu, huk, hbk]
  · intro k v huk hnb
    rw [dget?_updateNested u b k hu, huk]
    rcases hb : dget? b k with _ | bv
    · cases v <;> rfl
    · cases v with
      | jobj vo =>
        cases bv with
        | jobj bo => exact absurd hb (hnb vo rfl bo)
        | jstr s => rfl
        | jnum q => rfl
        | jbool bb => rfl
        | jnull => rfl
        | jarr xs => rfl
      | jstr s => rfl
      | jnum q => rfl
      | jbool bb => rfl
      | jnull => rfl
      | jarr xs => rfl
  · intro k huk
    rw [dget?_updateNested u b k hu, huk]
  · intro u2 hu2 hsame k
    rw [dget?_updateNested u b k hu, dget?_updateNested u2 b k hu2, hsame k]

/-- Witness for C3 at a concrete base and override exercising all cases:
a shared nested dict, a scalar overridden by an array, and a fresh key. -/
theorem C3_deep_merge_precedence_witness :
    ((([("a", J.jobj [("y", J.jnum 9)]), ("t", J.jarr [J.jnum 1]),
        ("n", J.jbool true)] : Dict).map Prod.fst).Nodup)
    ∧ ((∀ k uo bo,
          dget? [("a", J.jobj [("y", J.jnum 9)]), ("t", J.jarr [J.jnum 1]),
            ("n", J.jbool true)] k = some (J.jobj uo) →
          dget? [("a", J.jobj [("x", J.jnum 1), ("y", J.jnum 2)]),
            ("s", J.jstr "keep"), ("t", J.jnum 3)] k = some (J.jobj bo) →
          dget? (updateNested
              [("a", J.jobj [("x", J.jnum 1), ("y", J.jnum 2)]),
                ("s", J.jstr "keep"), ("t", J.jnum 3)]
              [("a", J.jobj [("y", J.jnum 9)]), ("t", J.jarr [J.jnum 1]),
                ("n", J.jbool true)]) k = some (J.jobj (updateNested bo uo)))
        ∧ (∀ k v,
            dget? [("a", J.jobj [("y", J.jnum 9)]), ("t", J.jarr [J.jnum 1]),
              ("n", J.jbool true)] k = some v →
            (∀ uo, v = J.jobj uo → ∀ bo,
              dget? [("a", J.jobj [("x", J.jnum 1), ("y", J.jnum 2)]),
                ("s", J.jstr "keep"), ("t", J.jnum 3)] k ≠ some (J.jobj bo)) →
            dget? (updateNested
                [("a", J.jobj [("x", J.jnum 1), ("y", J.jnum 2)]),
                  ("s", J.jstr "keep"), ("t", J.jnum 3)]
                [("a", J.jobj [("y", J.jnum 9)]), ("t", J.jarr [J.jnum 1]),
                  ("n", J.jbool true)]) k = some v)
        ∧ (∀ k,
            dget? [("a", J.jobj [("y", J.jnum 9)]), ("t", J.jarr [J.jnum 1]),
              ("n", J.jbool true)] k = none →
            dget? (updateNested
                [("a", J.jobj [("x", J.jnum 1), ("y", J.jnum 2)]),
                  ("s", J.jstr "keep"), ("t", J.jnum 3)]
                [("a", J.jobj [("y", J.jnum 9)]), ("t", J.jarr [J.jnum 1]),
                  ("n", J.jbool true)]) k =
              dget? [("a", J.jobj [("x", J.jnum 1), ("y", J.jnum 2)]),
                ("s", J.jstr "keep"), ("t", J.jnum 3)] k)
        ∧ (∀ u2, (u2.map Prod.fst).Nodup →
            (∀ k, dget? u2 k =
              dget? [("a", J.jobj [("y", J.jnum 9)]), ("t", J.jarr [J.jnum 1]),
                ("n", J.jbool true)] k) →
            ∀ k,
              dget? (updateNested
                  [("a", J.jobj [("x", J.jnum 1), ("y", J.jnum 2)]),
                    ("s", J.jstr "keep"), ("t", J.jnum 3)] u2) k =
                dget? (updateNested
                    [("a", J.jobj [("x", J.jnum 1), ("y", J.jnum 2)]),
                      ("s", J.jstr "keep"), ("t", J.jnum 3)]
                    [("a", J.jobj [("y", J.jnum 9)]), ("t", J.jarr [J.jnum 1]),
                      ("n", J.jbool true)]) k)) :=
  ⟨by simp, C3_deep_merge_precedence _ _ (by simp)⟩

/-! ### Claim C9: deep merge is idempotent on the defaults -/

/-- C9: for each document type of the repository (invoice, sales order,
layout demo) and for the shared base defaults, deep-merging an override
structurally equal to the default configuration over the default
configuration yields the default configuration again. -/
theorem C9_merge_idempotent_on_defaults :
    updateNested invoiceDefaultConfig invoiceDefaultConfig = invoiceDefaultConfig
    ∧ updateNested salesOrderDefaultConfig salesOrderDefaultConfig = salesOrderDefaultConfig
    ∧ updateNested layoutDemoDefaultConfig layoutDemoDefaultConfig = layoutDemoDefaultConfig
    ∧ updateNested baseDefaultConfig baseDefaultConfig = baseDefaultConfig := by
  refine ⟨?_, ?_, ?_, ?_⟩ <;>
    simp [invoiceDefaultConfig, salesOrderDefaultConfig, layoutDemoDefaultConfig,
      baseDefaultConfig, dictUpdate, invoiceOverlay, salesOrderOverlay,
      layoutDemoOverlay, updateNested, setMerged, dictSet, dget?]

/-! ### Claim C6: which default keys survive a merge -/

/-- C6 (amended): a key path present in the default configuration tree is
still present after a merge provided the override does not replace a proper
ancestor of the path with a non-mapping value (at every proper ancestor the
override either lacks the key or holds a nested mapping). In particular every
top-level default key survives any override mapping. An override that
replaces a whole sub-tree wholesale removes the default keys below it. -/
theorem C6_default_keys_preserved :
    ∀ (path : List String) (b u : Dict) (v : J),
      (J.jobj b).pget? path = some v → okAlongB path u = true →
      ∃ w, (J.jobj (updateNested b u)).pget? path = some w := by
  intro path
  induction path with
  | nil =>
    intro b u v _ _
    exact ⟨J.jobj (updateNested b u), rfl⟩
  | cons k ks ih =>
    intro b u v hpg hok
    rw [J.pget?] at hpg
    rw [okAlongB, Bool.and_eq_true] at hok
    have hnd := of_decide_eq_true hok.1
    have hok2 := hok.2
    rcases hb : dget? b k with _ | bv
    · simp [hb] at hpg
    · simp only [hb] at hpg
      rcases hu : dget? u k with _ | uv
      · simp only [hu] at hok2
        have hm : dget? (updateNested b u) k = dget? b k := by
          rw [dget?_updateNested u b k hnd, hu]
        exact ⟨v, by rw [J.pget?, hm, hb]; exact hpg⟩
      · simp only [hu] at hok2
        cases uv with
        | jobj uo =>
          cases bv with
          | jobj bo =>
            have hm : dget? (updateNested b u) k =
                some (J.jobj (updateNested bo uo)) := by
              rw [dget?_updateNested u b k hnd, hu, hb]
            obtain ⟨w, hw⟩ := ih bo uo v hpg hok2
            exact ⟨w, by rw [J.pget?, hm]; exact hw⟩
          | jstr s =>
            cases ks with
            | nil =>
              have hm : dget? (updateNested b u) k = some (J.jobj uo) := by
                rw [dget?_updateNested u b k hnd, hu, hb]
              exact ⟨J.jobj uo, by rw [J.pget?, hm]; rfl⟩
            | cons k2 ks2 => simp [J.pget?] at hpg
          | jnum q =>
            cases ks with
            | nil =>
              have hm : dget? (updateNested b u) k = some (J.jobj uo) := by
                rw [dget?_updateNested u b k hnd, hu, hb]
              exact ⟨J.jobj uo, by rw [J.pget?, hm]; rfl⟩
            | cons k2 ks2 => simp [J.pget?] at hpg
          | jbool bb =>
            cases ks with
            | nil =>
              have hm : dget? (updateNested b u) k = some (J.jobj uo) := by
                rw [dget?_updateNested u b k hnd, hu, hb]
              exact ⟨J.jobj uo, by rw [J.pget?, hm]; rfl⟩
            | cons k2 ks2 => simp [J.pget?] at hpg
          | jnull =>
            cases ks with
            | nil =>
              have hm : dget? (updateNested b u) k = some (J.jobj uo) := by
                rw [dget?_updateNested u b k hnd, hu, hb]
              exact ⟨J.jobj uo, by rw [J.pget?, hm]; rfl⟩
            | cons k2 ks2 => simp [J.pget?] at hpg
          | jarr xs =>
            cases ks with
            | nil =>
              have hm : dget? (updateNested b u) k = some (J.jobj uo) := by
                rw [dget?_updateNested u b k hnd, hu, hb]
              exact ⟨J.jobj uo, by rw [J.pget?, hm]; rfl⟩
            | cons k2 ks2 => simp [J.pget?] at hpg
        | jstr s =>
          have hks : ks = [] := by simpa using hok2
          subst hks
          have hm : dget? (updateNested b u) k = some (J.jstr s) := by
            rw [dget?_updateNested u b k hnd, hu, hb]
          exact ⟨J.jstr s, by rw [J.pget?, hm]; rfl⟩
        | jnum q =>
          have hks : ks = [] := by simpa using hok2
          subst hks
          have hm : dget? (updateNested b u) k = some (J.jnum q) := by
            rw [dget?_updateNested u b k hnd, hu, hb]
          exact ⟨J.jnum q, by rw [J.pget?, hm]; rfl⟩
        | jbool bb =>
          have hks : ks = [] := by simpa using hok2
          subst hks
          have hm : dget? (updateNested b u) k = some (J.jbool bb) := by
            rw [dget?_updateNested u b k hnd, hu, hb]
          exact ⟨J.jbool bb, by rw [J.pget?, hm]; rfl⟩
        | jnull =>
          have hks : ks = [] := by simpa using hok2
          subst hks
          have hm : dget? (updateNested b u) k = some J.jnull := by
            rw [dget?_updateNested u b k hnd, hu, hb]
          exact ⟨J.jnull, by rw [J.pget?, hm]; rfl⟩
        | jarr xs =>
          have hks : ks = [] := by simpa using hok2
          subst hks
          have hm : dget? (updateNested b u) k = some (J.jarr xs) := by
            rw [dget?_updateNested u b k hnd, hu, hb]
          exact ⟨J.jarr xs, by rw [J.pget?, hm]; rfl⟩

/-- Witness for C6: a nested default key survives an override that
deep-merges the enclosing sub-tree. -/
theorem C6_default_keys_preserved_witness :
    (J.jobj ([("a", J.jobj [("b", J.jnum 1)])] : Dict)).pget? ["a", "b"] =
        some (J.jnum 1)
    ∧ okAlongB ["a", "b"] [("a", J.jobj [("b", J.jnum 5)])] = true
    ∧ ∃ w, (J.jobj (updateNested [("a", J.jobj [("b", J.jnum 1)])]
        [("a", J.jobj [("b", J.jnum 5)])])).pget? ["a", "b"] = some w :=
  ⟨rfl, by decide,
    C6_default_keys_preserved ["a", "b"] _ _ (J.jnum 1) rfl (by decide)⟩

/-- C6 counterexample: the defaults hold a nested key a.b, the override
replaces the whole sub-tree at key a with a scalar, and the merged result no
longer contains the path a.b — the claim as stated (no default key is ever
removed, at any nesting depth) fails. -/
theorem C6_counterexample :
    (J.jobj ([("a", J.jobj [("b", J.jnum 1)])] : Dict)).pget? ["a", "b"] =
        some (J.jnum 1)
    ∧ (J.jobj (updateNested [("a", J.jobj [("b", J.jnum 1)])]
        [("a", J.jnum 2)])).pget? ["a", "b"] = none := by
  constructor
  · rfl
  · simp [updateNested, setMerged, dictSet, dget?, J.pget?]

/-! ### Claim C2: totals computation -/

theorem lineTotal?_eq (qf pf : String) (r : Row)
    (h1 : (cellQ? r qf).isSome) (h2 : (cellQ? r pf).isSome) :
    lineTotal? qf pf r = some ((cellQ? r qf).getD 0 * (cellQ? r pf).getD 0) := by
  obtain ⟨q, hq⟩ := Option.isSome_iff_exists.mp h1
  obtain ⟨p, hp⟩ := Option.isSome_iff_exists.mp h2
  simp [lineTotal?, hq, hp]

theorem foldlM_lineTotal (qf pf : String) :
    ∀ (rows : List Row) (s0 : ℚ),
      (∀ r ∈ rows, (cellQ? r qf).isSome ∧ (cellQ? r pf).isSome) →
      rows.foldlM (fun s r => (lineTotal? qf pf r).map (fun x => s + x)) s0 =
        some (s0 + (rows.map
          (fun r => (cellQ? r qf).getD 0 * (cellQ? r pf).getD 0)).sum) := by
  intro rows
  induction rows with
  | nil => intro s0 _; simp [List.foldlM]
  | cons r tl ih =>
    intro s0 h
    have hr := h r (List.mem_cons_self _ _)
    rw [List.foldlM_cons, lineTotal?_eq qf pf r hr.1 hr.2]
    simp only [Option.map_some', Option.bind_eq_bind, Option.some_bind]
    rw [ih _ (fun r2 hr2 => h r2 (List.mem_cons_of_mem _ hr2))]
    simp [add_assoc]

theorem subtotal?_eq_sum (qf pf : String) (rows : List Row)
    (h : ∀ r ∈ rows, (cellQ? r qf).isSome ∧ (cellQ? r pf).isSome) :
    subtotal? qf pf rows =
      some ((rows.map
        (fun r => (cellQ? r qf).getD 0 * (cellQ? r pf).getD 0)).sum) := by
  rw [subtotal?, foldlM_lineTotal qf pf rows 0 h, zero_add]

/-- C2: the totals section computes the subtotal as the sum over all rows of
quantity times unit price, with the field names resolved through the
field mapping of the configuration; the sales-order type then adds the flat
shipping cost and the tax subtotal * tax_rate, in that order, with shipping
itself untaxed: total = subtotal + shipping_cost + subtotal * tax_rate. The
invoice type has no shipping cost (total = subtotal + subtotal * tax_rate).
On the example line items with tax_rate = 0.08 and no shipping the invoice
totals are subtotal 3065.00, tax 245.20, total 3310.20. -/
theorem C2_totals_computation (cfgS cfgI : Dict) (rowsS rowsI : List Row)
    (qfS pfS qfI pfI : String) (sc tr trI : ℚ)
    (hqS : lineItemField? cfgS 2 = some qfS)
    (hpS : lineItemField? cfgS 3 = some pfS)
    (hsc : calcQ? cfgS "shipping_cost" = some sc)
    (htr : calcQ? cfgS "tax_rate" = some tr)
    (hnumS : ∀ r ∈ rowsS, (cellQ? r qfS).isSome ∧ (cellQ? r pfS).isSome)
    (hqI : lineItemField? cfgI 1 = some qfI)
    (hpI : lineItemField? cfgI 2 = some pfI)
    (htrI : calcQ? cfgI "tax_rate" = some trI)
    (hnumI : ∀ r ∈ rowsI, (cellQ? r qfI).isSome ∧ (cellQ? r pfI).isSome) :
    createTotalsSalesOrder? cfgS rowsS =
      some ((rowsS.map (fun r => (cellQ? r qfS).getD 0 * (cellQ? r pfS).getD 0)).sum,
        sc,
        (rowsS.map (fun r => (cellQ? r qfS).getD 0 * (cellQ? r pfS).getD 0)).sum * tr,
        (rowsS.map (fun r => (cellQ? r qfS).getD 0 * (cellQ? r pfS).getD 0)).sum + sc +
          (rowsS.map (fun r => (cellQ? r qfS).getD 0 * (cellQ? r pfS).getD 0)).sum * tr)
    ∧ createTotalsInvoice? cfgI rowsI =
      some ((rowsI.map (fun r => (cellQ? r qfI).getD 0 * (cellQ? r pfI).getD 0)).sum,
        (rowsI.map (fun r => (cellQ? r qfI).getD 0 * (cellQ? r pfI).getD 0)).sum * trI,
        (rowsI.map (fun r => (cellQ? r qfI).getD 0 * (cellQ? r pfI).getD 0)).sum +
          (rowsI.map (fun r => (cellQ? r qfI).getD 0 * (cellQ? r pfI).getD 0)).sum * trI)
    ∧ createTotalsInvoice? invoiceDefaultConfig exRowsC2 =
        some (3065, 245.20, 3310.20) := by
  refine ⟨?_, ?_, ?_⟩
  case refine_3 =>
    simp [createTotalsInvoice?, lineItemField?, calcQ?, invoiceDefaultConfig,
      dictUpdate, baseDefaultConfig, invoiceOverlay, dictSet, dget?, J.pget?,
      subtotal?, lineTotal?, cellQ?, Val.toQ?, J.toQ?, exRowsC2, List.foldlM]
    norm_num
  · rw [createTotalsSalesOrder?]
    rw [hqS, hpS]
    simp only [Option.bind_eq_bind, Option.some_bind]
    rw [subtotal?_eq_sum qfS pfS rowsS hnumS]
    simp only [Option.some_bind]
    rw [hsc, htr]
    rfl
  · rw [createTotalsInvoice?]
    rw [hqI, hpI]
    simp only [Option.bind_eq_bind, Option.some_bind]
    rw [subtotal?_eq_sum qfI pfI rowsI hnumI]
    simp only [Option.some_bind]
    rw [htrI]
    rfl

/-- Witness for C2 at the default configurations and the example line items:
the sales-order totals add the 25.00 default shipping cost untaxed
(3065 + 25 + 245.20 = 3335.20). -/
theorem C2_totals_computation_witness :
    createTotalsSalesOrder? salesOrderDefaultConfig exRowsC2 =
      some (3065, 25, 245.20, 3335.20) := by
  have H := (C2_totals_computation salesOrderDefaultConfig invoiceDefaultConfig
    exRowsC2 exRowsC2 "quantity" "unit_price" "quantity" "unit_price" 25 0.08 0.08
    (by decide) (by decide)
    (by simp [calcQ?, J.toQ?, salesOrderDefaultConfig, dictUpdate, baseDefaultConfig,
      salesOrderOverlay, dictSet, dget?, J.pget?]; norm_num)
    (by simp [calcQ?, J.toQ?, salesOrderDefaultConfig, dictUpdate, baseDefaultConfig,
      salesOrderOverlay, dictSet, dget?, J.pget?])
    (by decide) (by decide) (by decide)
    (by simp [calcQ?, J.toQ?, invoiceDefaultConfig, dictUpdate, baseDefaultConfig,
      invoiceOverlay, dictSet, dget?, J.pget?])
    (by decide)).1
  rw [H]
  simp [exRowsC2, cellQ?, dget?, Val.toQ?]
  norm_num

/-! ### Claim C5: a missing key field aborts before any work -/

/-- C5: when the configured document-number field is absent from the table
columns, generate_documents raises the missing-field error up front: the
result is the error alone, no file is written and no path is returned — for
every renderer, every range, every table content. -/
theorem C5_missing_field_aborts (cfg : Dict) (renderOk : String → Bool)
    (mergedName : String) (data : Table) (docRange : Option (List String))
    (f : String)
    (hf : cfgStr? cfg ["fields", "document_number_field"] = some f)
    (hcol : data.cols.contains f = false) :
    generateDocuments cfg renderOk mergedName data docRange =
      ⟨[], .error ("Document number field " ++ f ++ " not found in data")⟩ := by
  rw [generateDocuments]
  simp only [hf]
  rw [if_pos hcol]

/-- Witness for C5: the invoice defaults look for invoice_number, the table
only has an order_id column. -/
theorem C5_missing_field_aborts_witness :
    cfgStr? invoiceDefaultConfig ["fields", "document_number_field"] =
        some "invoice_number"
    ∧ (⟨["order_id"], [[("order_id", Val.vstr "A")]]⟩ : Table).cols.contains
        "invoice_number" = false
    ∧ generateDocuments invoiceDefaultConfig (fun _ => true) "merged.pdf"
        ⟨["order_id"], [[("order_id", Val.vstr "A")]]⟩ none =
      ⟨[], .error ("Document number field " ++ "invoice_number" ++
        " not found in data")⟩ :=
  ⟨by decide, by decide,
    C5_missing_field_aborts invoiceDefaultConfig (fun _ => true) "merged.pdf"
      ⟨["order_id"], [[("order_id", Val.vstr "A")]]⟩ none "invoice_number"
      (by decide) (by decide)⟩

/-! ### Claim C7: the range filter -/

/-- C7 (amended): for every grouping result and every nonempty requested
key list, the range filter keeps exactly the entries whose key is contained
in the request, in grouping order; requested keys absent from the data
are silently dropped and raise nothing, so requesting A and Z against data
holding only A and B produces exactly the one document for A. An empty
requested list is falsy in Python and disables filtering entirely. -/
theorem C7_range_filter (grouped : List (String × List Row)) (r : List String)
    (hr : r ≠ []) :
    applyRangeFilter grouped (some r) = grouped.filter (fun kv => r.contains kv.1)
    ∧ (applyRangeFilter grouped (some r)).map Prod.fst =
        (grouped.map Prod.fst).filter (fun k => r.contains k)
    ∧ (∀ kv ∈ applyRangeFilter grouped (some r), kv ∈ grouped ∧ kv.1 ∈ r)
    ∧ generateDocuments invoiceDefaultConfig (fun _ => true) "merged.pdf"
        ⟨["invoice_number"], [[("invoice_number", Val.vstr "A")],
          [("invoice_number", Val.vstr "B")]]⟩ (some ["A", "Z"]) =
        ⟨["invoices/invoice_A.pdf"], .ok ["invoices/invoice_A.pdf"]⟩ := by
  have h1 : applyRangeFilter grouped (some r) =
      grouped.filter (fun kv => r.contains kv.1) := by
    rw [applyRangeFilter]
    simp [List.isEmpty_iff, hr]
  refine ⟨h1, ?_, ?_, rfl⟩
  · have h2 : ∀ g : List (String × List Row),
        (g.filter (fun kv => r.contains kv.1)).map Prod.fst =
          (g.map Prod.fst).filter (fun k => r.contains k) := by
      intro g
      induction g with
      | nil => simp
      | cons kv tl ih =>
        by_cases hkv : r.contains kv.1 = true
        · rw [List.filter_cons_of_pos (p := fun q : String × List Row => r.contains q.1) hkv,
            List.map_cons, List.map_cons,
            List.filter_cons_of_pos (p := fun k : String => r.contains k) hkv, ih]
        · rw [List.filter_cons_of_neg (p := fun q : String × List Row => r.contains q.1) hkv,
            List.map_cons,
            List.filter_cons_of_neg (p := fun k : String => r.contains k) hkv, ih]
    rw [h1, h2]
  · intro kv hkv
    rw [h1, List.mem_filter] at hkv
    exact ⟨hkv.1, by simpa using hkv.2⟩

/-- Witness for C7 on a two-entry grouping and the request B, C. -/
theorem C7_range_filter_witness :
    ((["B", "C"] : List String) ≠ [])
    ∧ (applyRangeFilter [("A", ([] : List Row)), ("B", [])] (some ["B", "C"]) =
        [("A", ([] : List Row)), ("B", [])].filter
          (fun kv => (["B", "C"] : List String).contains kv.1)
      ∧ (applyRangeFilter [("A", ([] : List Row)), ("B", [])]
            (some ["B", "C"])).map Prod.fst =
          ([("A", ([] : List Row)), ("B", [])].map Prod.fst).filter
            (fun k => (["B", "C"] : List String).contains k)
      ∧ (∀ kv ∈ applyRangeFilter [("A", ([] : List Row)), ("B", [])]
            (some ["B", "C"]),
          kv ∈ [("A", ([] : List Row)), ("B", [])] ∧ kv.1 ∈ (["B", "C"] : List String))
      ∧ generateDocuments invoiceDefaultConfig (fun _ => true) "merged.pdf"
          ⟨["invoice_number"], [[("invoice_number", Val.vstr "A")],
            [("invoice_number", Val.vstr "B")]]⟩ (some ["A", "Z"]) =
          ⟨["invoices/invoice_A.pdf"], .ok ["invoices/invoice_A.pdf"]⟩) :=
  ⟨by decide, C7_range_filter [("A", []), ("B", [])] ["B", "C"] (by decide)⟩

/-- C7 counterexample: with the empty requested list — obtainable from the
command line, since the range option accepts zero arguments — the code skips
filtering and keeps every group, while the claim (restrict to the keys in
both the filter and the grouping) demands the empty result. -/
theorem C7_counterexample :
    applyRangeFilter [("A", ([] : List Row))] (some []) = [("A", [])]
    ∧ [("A", ([] : List Row))].filter
        (fun kv => ([] : List String).contains kv.1) = [] :=
  ⟨rfl, rfl⟩

/-! ### Claim C10: individual_files disabled -/

/-- C10: whenever output.individual_files is falsy, generate_documents
returns the empty list and writes nothing at all — in particular no merged
artifact is produced even when output.merged_file is truthy, because merging
requires at least one generated individual file. -/
theorem C10_no_individual_files (cfg : Dict) (renderOk : String → Bool)
    (mergedName : String) (data : Table) (docRange : Option (List String))
    (f outDir : String) (indiv mf : J)
    (hf : cfgStr? cfg ["fields", "document_number_field"] = some f)
    (hcol : data.cols.contains f = true)
    (hout : cfgStr? cfg ["output", "output_directory"] = some outDir)
    (hind : (J.jobj cfg).pget? ["output", "individual_files"] = some indiv)
    (hindF : indiv.truthy = false)
    (hmf : (J.jobj cfg).pget? ["output", "merged_file"] = some mf) :
    generateDocuments cfg renderOk mergedName data docRange = ⟨[], .ok []⟩ := by
  rw [generateDocuments]
  simp [hf, hcol, hout, hind, hindF, hmf, renderLoop]
  simpa using hcol

/-- Witness for C10: individual files off, merged file on, one data group;
nothing is written and the empty list is returned. -/
theorem C10_no_individual_files_witness :
    (J.jobj cfgC10).pget? ["output", "individual_files"] = some (J.jbool false)
    ∧ (J.jobj cfgC10).pget? ["output", "merged_file"] = some (J.jbool true)
    ∧ generateDocuments cfgC10 (fun _ => true) "merged.pdf"
        ⟨["invoice_number"], [[("invoice_number", Val.vstr "A")]]⟩ none =
      ⟨[], .ok []⟩ :=
  ⟨rfl, rfl,
    C10_no_individual_files cfgC10 (fun _ => true) "merged.pdf"
      ⟨["invoice_number"], [[("invoice_number", Val.vstr "A")]]⟩ none
      "invoice_number" "invoices" (J.jbool false) (J.jbool true)
      (by decide) (by decide) (by decide) rfl rfl rfl⟩

/-! ### Claim C4: a renderer failure halts the batch -/

/-- The per-document loop, characterized over the group paths: all paths up
to the first rendering failure are written; at the first failure the loop
stops with the raised error, abandoning every later group; with no failure
all paths are written and no error is raised. -/
theorem renderLoop_eq (renderOk : String → Bool) (g : String → String) :
    ∀ (groups : List (String × List Row)) (acc : List String),
      renderLoop renderOk (fun k => some (g k)) groups acc =
        match (groups.map (fun kv => g kv.1)).dropWhile renderOk with
        | [] => (acc ++ groups.map (fun kv => g kv.1), none)
        | p0 :: _ =>
          (acc ++ (groups.map (fun kv => g kv.1)).takeWhile renderOk,
            some ("render failed: " ++ p0)) := by
  intro groups
  induction groups with
  | nil => intro acc; simp [renderLoop]
  | cons kv gs ih =>
    intro acc
    obtain ⟨k, rws⟩ := kv
    rw [renderLoop]
    by_cases hp : renderOk (g k) = true
    · simp only [hp, if_true, ih (acc ++ [g k]), List.map_cons,
        List.dropWhile_cons, List.takeWhile_cons]
      cases hd : (gs.map (fun kv => g kv.1)).dropWhile renderOk with
      | nil => simp [hd]
      | cons p0 rest2 => simp [hd]
    · simp only [hp, if_false, List.map_cons, List.dropWhile_cons,
        List.takeWhile_cons]
      simp [hp]

/-- C4 (amended): a renderer failure while producing one document halts
generate_documents at that document: the documents before it have been
written (their paths are the longest all-successful path of the loop), the
failing document and every later one are not generated, no merged artifact
is attempted, and the call raises instead of returning the path list. -/
theorem C4_render_failure_halts (cfg : Dict) (renderOk : String → Bool)
    (mergedName : String) (data : Table) (docRange : Option (List String))
    (f outDir tmpl : String) (indiv : J)
    (hf : cfgStr? cfg ["fields", "document_number_field"] = some f)
    (hcol : data.cols.contains f = true)
    (hout : cfgStr? cfg ["output", "output_directory"] = some outDir)
    (hind : (J.jobj cfg).pget? ["output", "individual_files"] = some indiv)
    (hindT : indiv.truthy = true)
    (htmpl : cfgStr? cfg ["output", "filename_template"] = some tmpl)
    (p0 : String) (rest : List String)
    (hdrop : (((applyRangeFilter (groupDocumentData data.rows f) docRange).map
        (fun kv => outDir ++ "/" ++ formatTemplate tmpl kv.1)).dropWhile renderOk)
        = p0 :: rest) :
    generateDocuments cfg renderOk mergedName data docRange =
      ⟨((applyRangeFilter (groupDocumentData data.rows f) docRange).map
          (fun kv => outDir ++ "/" ++ formatTemplate tmpl kv.1)).takeWhile renderOk,
        .error ("render failed: " ++ p0)⟩ := by
  rw [generateDocuments]
  simp only [hf]
  rw [if_neg (by simpa using hcol)]
  simp only [hout, hind, hindT, if_true, htmpl, Option.map_some',
    renderLoop_eq renderOk (fun k => outDir ++ "/" ++ formatTemplate tmpl k)]
  rw [hdrop]
  simp

/-- Witness for C4: rendering fails on the second of two documents; the
first file was written, the second is not, and the error propagates. -/
theorem C4_render_failure_halts_witness :
    generateDocuments invoiceDefaultConfig
        (fun p => p != "invoices/invoice_B.pdf") "merged.pdf" exTabC4 none =
      ⟨["invoices/invoice_A.pdf"], .error "render failed: invoices/invoice_B.pdf"⟩ := by
  have H := C4_render_failure_halts invoiceDefaultConfig
    (fun p => p != "invoices/invoice_B.pdf") "merged.pdf" exTabC4 none
    "invoice_number" "invoices" "invoice_\x7bdocument_number\x7d.pdf" (J.jbool true)
    (by decide) (by decide) (by decide) rfl rfl (by decide)
    "invoices/invoice_B.pdf" [] rfl
  rw [H]
  rfl

/-- C4 counterexample: a batch of two documents where rendering the first
fails yields zero successful paths and an aborted run — not one successful
path plus a recorded failure, as the claim states. -/
theorem C4_counterexample :
    (groupDocumentData exTabC4.rows "invoice_number").length = 2
    ∧ generateDocuments invoiceDefaultConfig
        (fun p => p != "invoices/invoice_A.pdf") "merged.pdf" exTabC4 none =
      ⟨[], .error "render failed: invoices/invoice_A.pdf"⟩ :=
  ⟨rfl, rfl⟩

/-! ### Claim C8: malformed explicit override file -/

/-- C8 (amended): an explicit config path that exists but fails to parse is
reported and fails soft — the run continues and resolution returns a
configuration — but the result is the pure defaults: because the explicit
file exists, resolution never falls through to the standard search
locations, so the file is treated as loaded-without-effect, not as absent. -/
theorem C8_malformed_explicit_config (defaults : Dict) (fs : String → FileState)
    (searchPaths : List String) (p : String) (hp : p ≠ "")
    (hmal : fs p = FileState.malformed) :
    resolveConfig defaults fs (some p) searchPaths = defaults := by
  rw [resolveConfig]
  rw [if_pos (by simp [hp, hmal, FileState.isPresent])]
  rw [hmal]
  simp [loadConfig]

/-- Witness for C8: with the malformed explicit file, resolution yields the
pure defaults even though a parseable standard-location file exists. -/
theorem C8_malformed_explicit_config_witness :
    ("explicit.json" : String) ≠ ""
    ∧ fsC8 "explicit.json" = FileState.malformed
    ∧ resolveConfig baseDefaultConfig fsC8 (some "explicit.json") ["search.json"] =
        baseDefaultConfig :=
  ⟨by decide, rfl,
    C8_malformed_explicit_config baseDefaultConfig fsC8 ["search.json"]
      "explicit.json" (by decide) rfl⟩

/-- C8 counterexample: resolution with the malformed explicit file differs
from resolution with that file absent — the latter falls through to the
standard search location and merges its override, the former keeps the pure
defaults. The claim that the malformed file is treated as if it did not
exist fails. -/
theorem C8_counterexample :
    dget? (resolveConfig baseDefaultConfig fsC8 (some "explicit.json")
        ["search.json"]) "page_size" = some (J.jstr "letter")
    ∧ dget? (resolveConfig baseDefaultConfig
        (fun q => if q == "explicit.json" then FileState.absent else fsC8 q)
        (some "explicit.json") ["search.json"]) "page_size" = some (J.jstr "a4")
    ∧ resolveConfig baseDefaultConfig fsC8 (some "explicit.json") ["search.json"] ≠
        resolveConfig baseDefaultConfig
          (fun q => if q == "explicit.json" then FileState.absent else fsC8 q)
          (some "explicit.json") ["search.json"] := by
  have h1 : dget? (resolveConfig baseDefaultConfig fsC8 (some "explicit.json")
      ["search.json"]) "page_size" = some (J.jstr "letter") := rfl
  have h2 : dget? (resolveConfig baseDefaultConfig
      (fun q => if q == "explicit.json" then FileState.absent else fsC8 q)
      (some "explicit.json") ["search.json"]) "page_size" = some (J.jstr "a4") := by
    simp [resolveConfig, resolveSearch, loadConfig, fsC8, FileState.isPresent,
      updateNested, setMerged, dictSet, dget?, baseDefaultConfig]
  refine ⟨h1, h2, fun h => ?_⟩
  rw [h, h2] at h1
  simp at h1
